import Mathlib

/-!
Shallow embedding of `src/AI/ai_detector.py` (VideoIndex local AI detector).

Conventions of the embedding:
* Python strings are `List Char` (ASCII-level; `str.lower()` and
  `re.IGNORECASE` are modelled by ASCII case folding `lowerAscii`, which
  agrees with Python on all ASCII text).
* The external effectful dependencies (cv2 video capture, the YOLO person
  detector, the EasyOCR reader, the filesystem) are modelled as an explicit
  environment record; an exception raised by a dependency is an explicit
  outcome in that record.
* Python floats (the confidence ratio `count/len`, threshold `0.4`) are
  modelled as rationals; with at most 20 detections the float comparisons
  agree with the exact rational ones.
* Frame indices `int(total_frames * i / (num_frames + 1))` and
  `int(total_frames * pos)` are modelled with exact natural division; for
  realistic frame counts the float computation is exact enough to agree,
  and no claim depends on the index values.
-/

namespace VideoIndex

/-- The character class `[a-zA-Z0-9_-]` of the username regexes, stated on
ASCII code points: `a`-`z` is 97-122, `A`-`Z` is 65-90, `0`-`9` is 48-57,
`_` is 95, `-` is 45. -/
def isUserChar (c : Char) : Bool :=
  (97 ≤ c.toNat && c.toNat ≤ 122) || (65 ≤ c.toNat && c.toNat ≤ 90) ||
  (48 ≤ c.toNat && c.toNat ≤ 57) || c.toNat = 95 || c.toNat = 45

/-- The lowercase part of the class: `[a-z0-9_-]`. -/
def isLowerUserChar (c : Char) : Bool :=
  (97 ≤ c.toNat && c.toNat ≤ 122) ||
  (48 ≤ c.toNat && c.toNat ≤ 57) || c.toNat = 95 || c.toNat = 45

/-- ASCII case folding: the effect of Python `str.lower()` (and of
`re.IGNORECASE` matching against lowercase pattern literals) on ASCII. -/
def lowerAscii (c : Char) : Char :=
  if 65 ≤ c.toNat && c.toNat ≤ 90 then Char.ofNat (c.toNat + 32) else c

/-- Python `\s` on ASCII: space, tab, newline, carriage return, vertical
tab, form feed. -/
def isWsChar (c : Char) : Bool :=
  c = ' ' || c = '\t' || c = '\n' || c = '\r' || c = '\x0b' || c = '\x0c'

/-- Match a literal pattern (given in lowercase) case-insensitively as a
prefix of the input, returning the remaining input on success. -/
def stripPrefixCI : List Char → List Char → Option (List Char)
  | [], s => some s
  | _ :: _, [] => none
  | p :: ps, c :: cs => if lowerAscii c = p then stripPrefixCI ps cs else none

/-- `.*pat`: some (possibly empty) run of non-newline characters followed by
the literal `pat`, anchored at the current position. -/
def dotStarThen (pat : List Char) : List Char → Bool
  | [] => (stripPrefixCI pat []).isSome
  | c :: cs => (stripPrefixCI pat (c :: cs)).isSome || ((c != '\n') && dotStarThen pat cs)

/-- `re.search`: does the position-anchored matcher succeed at some
position of the input? -/
def searchBool (p : List Char → Bool) : List Char → Bool
  | [] => p []
  | c :: cs => p (c :: cs) || searchBool p cs

/-- Pattern `onlyfans` anchored at the current position. -/
def matchOnlyfansAt (s : List Char) : Bool :=
  (stripPrefixCI "onlyfans".toList s).isSome

/-- Pattern `only\s*fans` anchored at the current position (`\s*` is greedy;
`f` is not whitespace, so dropping all whitespace is exact). -/
def matchOnlySpFansAt (s : List Char) : Bool :=
  match stripPrefixCI "only".toList s with
  | some r => (stripPrefixCI "fans".toList (r.dropWhile isWsChar)).isSome
  | none => false

/-- Pattern `of\s*:` anchored at the current position. -/
def matchOfColonAt (s : List Char) : Bool :=
  match stripPrefixCI "of".toList s with
  | some r => (stripPrefixCI ":".toList (r.dropWhile isWsChar)).isSome
  | none => false

/-- Pattern `of\s*/` anchored at the current position. -/
def matchOfSlashAt (s : List Char) : Bool :=
  match stripPrefixCI "of".toList s with
  | some r => (stripPrefixCI "/".toList (r.dropWhile isWsChar)).isSome
  | none => false

/-- Pattern `@.*onlyfans` anchored at the current position. -/
def matchAtOnlyfansAt (s : List Char) : Bool :=
  match s with
  | '@' :: rest => dotStarThen "onlyfans".toList rest
  | _ => false

/-- `LocalAIDetector._has_onlyfans_text`: `re.search` of the five branding
patterns, any hit counts. -/
def has_onlyfans_text (s : List Char) : Bool :=
  searchBool matchOnlyfansAt s || searchBool matchOnlySpFansAt s ||
  searchBool matchOfColonAt s || searchBool matchOfSlashAt s ||
  searchBool matchAtOnlyfansAt s

/-- At the current position: match the pattern prefix `pre`, then capture
the greedy nonempty run `([a-zA-Z0-9_-]+)`. -/
def capWith (pre : List Char → Option (List Char)) (s : List Char) : Option (List Char) :=
  match pre s with
  | none => none
  | some r =>
    let cap := r.takeWhile isUserChar
    if cap.isEmpty then none else some cap

/-- `re.search` for a prefix-then-capture pattern: leftmost position where
the whole pattern (prefix and nonempty capture) matches. -/
def searchCap (pre : List Char → Option (List Char)) : List Char → Option (List Char)
  | [] => capWith pre []
  | c :: cs =>
    match capWith pre (c :: cs) with
    | some cap => some cap
    | none => searchCap pre cs

/-- Prefix of `onlyfans\.com/([a-zA-Z0-9_-]+)`. -/
def preOnlyfansSlash (s : List Char) : Option (List Char) :=
  stripPrefixCI "onlyfans.com/".toList s

/-- Prefix of `onlyfans\.com\\([a-zA-Z0-9_-]+)` (a literal backslash). -/
def preOnlyfansBack (s : List Char) : Option (List Char) :=
  stripPrefixCI "onlyfans.com\\".toList s

/-- Prefix of `onlyfans:\s*([a-zA-Z0-9_-]+)`. -/
def preOnlyfansColon (s : List Char) : Option (List Char) :=
  (stripPrefixCI "onlyfans:".toList s).map (fun r => r.dropWhile isWsChar)

/-- Prefix of `of:\s*([a-zA-Z0-9_-]+)`. -/
def preOfColon (s : List Char) : Option (List Char) :=
  (stripPrefixCI "of:".toList s).map (fun r => r.dropWhile isWsChar)

/-- Prefix of `of/([a-zA-Z0-9_-]+)`. -/
def preOfSlash (s : List Char) : Option (List Char) :=
  stripPrefixCI "of/".toList s

/-- Prefix of `@([a-zA-Z0-9_-]+)`. -/
def preAtSign (s : List Char) : Option (List Char) :=
  stripPrefixCI "@".toList s

/-- Prefix of `/([a-zA-Z0-9_-]+)`. -/
def preSlash (s : List Char) : Option (List Char) :=
  stripPrefixCI "/".toList s

/-- The seven username patterns of `_extract_username`, in source order. -/
def usernamePatterns : List (List Char → Option (List Char)) :=
  [preOnlyfansSlash, preOnlyfansBack, preOnlyfansColon, preOfColon,
   preOfSlash, preAtSign, preSlash]

/-- The validation applied to a captured group: `3 <= len(username) <= 30`
and a `re.match` of the anchored class pattern, then `username.lower()`. -/
def validateUsername (cap : List Char) : Option String :=
  if 3 ≤ cap.length && cap.length ≤ 30 && cap.all isUserChar then
    some (String.mk (cap.map lowerAscii))
  else none

/-- Try the patterns in order: the first pattern that matches somewhere has
its captured group validated; on validation failure the loop moves to the
next pattern (not to a later occurrence of the same pattern). -/
def extractFrom : List (List Char → Option (List Char)) → List Char → Option String
  | [], _ => none
  | p :: ps, s =>
    match searchCap p s with
    | some cap =>
      match validateUsername cap with
      | some u => some u
      | none => extractFrom ps s
    | none => extractFrom ps s

/-- `LocalAIDetector._extract_username`. -/
def extract_username (s : List Char) : Option String :=
  extractFrom usernamePatterns s

/-- A decoded video frame: a `h × w` array of pixels (pixel values are
opaque; `numpy` colour depth is irrelevant to every claim). -/
structure Frame where
  h : Nat
  w : Nat
  px : Nat → Nat → Nat

/-- A numpy slice `frame[r0:r1, c0:c1]` (all bounds nonnegative and within
range in every use below). -/
def subFrame (f : Frame) (r0 r1 c0 c1 : Nat) : Frame :=
  { h := r1 - r0, w := c1 - c0, px := fun i j => f.px (r0 + i) (c0 + j) }

/-- `LocalAIDetector._get_corners`: with `corner_h = h // 6` and
`corner_w = w // 4`, the four slices top-left, top-right, bottom-left,
bottom-right, in source order. -/
def get_corners (f : Frame) : List Frame :=
  let corner_w := f.w / 4
  let corner_h := f.h / 6
  [subFrame f 0 corner_h 0 corner_w,
   subFrame f 0 corner_h (f.w - corner_w) f.w,
   subFrame f (f.h - corner_h) f.h 0 corner_w,
   subFrame f (f.h - corner_h) f.h (f.w - corner_w) f.w]

/-- Outcome of one loop iteration of `count_performers` for a given frame
index: `cap.read()` may fail (`ret` false, the loop continues), the YOLO
call may raise (the surrounding `try` returns `None`), the result list may
lack boxes (nothing appended), or a person count is appended. -/
inductive DetectOutcome where
  | decodeFail
  | detectRaise (msg : String)
  | noBoxes
  | counted (n : Nat)
deriving DecidableEq

/-- Environment for one video file: whether `cv2.VideoCapture` opens, the
reported `CAP_PROP_FRAME_COUNT`, the per-index outcome of the
decode-and-detect step of `count_performers`, the per-index decode result
for `detect_watermark`, the output (or exception) of the OCR reader per
corner image, and an optional exception raised by the cv2 calls inside
the outer `try` of `detect_watermark`. -/
structure VideoEnv where
  opens : Bool
  totalFrames : Nat
  cpOutcome : Nat → DetectOutcome
  dwRead : Nat → Option Frame
  ocr : Frame → Except String (List String)
  dwRaise : Option String

/-- The sampled indices `int(total_frames * i / (num_frames + 1))` for
`i = 1 .. num_frames`. -/
def frameIndices (totalFrames numFrames : Nat) : List Nat :=
  (List.range numFrames).map (fun i => totalFrames * (i + 1) / (numFrames + 1))

/-- The loop of `count_performers`: walk the sampled indices accumulating
counts; a raised detection exception aborts the whole loop (the `except`
clause of `count_performers` returns `None`). -/
def runCounts (f : Nat → DetectOutcome) : List Nat → Except String (List Nat)
  | [] => .ok []
  | idx :: rest =>
    match f idx with
    | .decodeFail => runCounts f rest
    | .noBoxes => runCounts f rest
    | .detectRaise msg => .error msg
    | .counted n => (runCounts f rest).map (fun cs => n :: cs)

/-- Python `max(set(l), key=l.count)`: some element of `l` whose number of
occurrences in `l` is maximal (modelled with first-occurrence enumeration
of the set; any maximiser satisfies every claim below). -/
def pyMode {α : Type} [DecidableEq α] (l : List α) : Option α :=
  (l.dedup).argmax (fun v => l.count v)

/-- `LocalAIDetector.count_performers`. -/
def count_performers (env : VideoEnv) (num_frames : Nat) : Option Nat :=
  if !env.opens then none
  else if env.totalFrames = 0 then none
  else
    match runCounts env.cpOutcome (frameIndices env.totalFrames num_frames) with
    | .error _ => none
    | .ok counts => if counts.isEmpty then none else pyMode counts

/-- The per-frame person counts that the sampling loop would collect when
no detection call raises: the `counted` outcomes of the sampled indices,
in order (empty when the capture does not open or reports zero frames). -/
def cpCounts (env : VideoEnv) (num_frames : Nat) : List Nat :=
  if !env.opens then []
  else if env.totalFrames = 0 then []
  else
    (frameIndices env.totalFrames num_frames).filterMap (fun idx =>
      match env.cpOutcome idx with
      | .counted n => some n
      | _ => none)

/-- The sampled positions of `detect_watermark`:
`int(total_frames * pos)` for `pos` in `[0.05, 0.25, 0.50, 0.75, 0.95]`. -/
def dwFrameIndices (totalFrames : Nat) : List Nat :=
  [totalFrames * 5 / 100, totalFrames * 25 / 100, totalFrames * 50 / 100,
   totalFrames * 75 / 100, totalFrames * 95 / 100]

/-- One corner of one frame inside the inner `try` of `detect_watermark`: run
OCR (an exception means `continue`), join the text chunks with spaces,
lowercase, and keep the extracted username when the branding check and the
extraction both succeed. -/
def processCorner (env : VideoEnv) (corner : Frame) : Option String :=
  match env.ocr corner with
  | .error _ => none
  | .ok chunks =>
    let text := ((String.intercalate " " chunks).toList).map lowerAscii
    if has_onlyfans_text text then extract_username text else none

/-- The usernames appended to `detections`, in loop order: for each sampled
index that decodes, each of the four corners in order. -/
def dwDetections (env : VideoEnv) : List String :=
  (dwFrameIndices env.totalFrames).flatMap (fun idx =>
    match env.dwRead idx with
    | none => []
    | some frame => (get_corners frame).filterMap (processCorner env))

/-- `LocalAIDetector.detect_watermark`: returns
`(username, has_onlyfans, confidence)`; `confidence` is the share
`detections.count(most_common) / len(detections)` of the most common
username among all detections (`mkRat n d` is the exact rational `n / d`),
and the username is reported only when `confidence > 0.4` (the rational
`2 / 5`). -/
def detect_watermark (env : VideoEnv) : Option String × Bool × ℚ :=
  if env.dwRaise.isSome then (none, false, 0)
  else if !env.opens then (none, false, 0)
  else if env.totalFrames = 0 then (none, false, 0)
  else
    let detections := dwDetections env
    if detections.isEmpty then (none, false, 0)
    else
      match pyMode detections with
      | none => (none, false, 0)
      | some most_common =>
        let confidence : ℚ := mkRat (detections.count most_common) detections.length
        let has_onlyfans := decide (mkRat 2 5 < confidence)
        (if has_onlyfans then some most_common else none, has_onlyfans, confidence)

/-- The result dictionary built by `analyze_video`, field for field. -/
structure AVResult where
  success : Bool
  performer_count : Option Nat
  onlyfans_detected : Bool
  onlyfans_username : Option String
  confidence : ℚ
  error : Option String
deriving DecidableEq

/-- The environment of one `analyze_video` call: the outcome of
`Path(video_path).exists()` (which can itself raise, caught by the outer
`try`), and the video environment behind the path. -/
structure PathEnv where
  existsCheck : Except String Bool
  video : VideoEnv

/-- `LocalAIDetector.analyze_video`. -/
def analyze_video (env : PathEnv) : AVResult :=
  let result : AVResult :=
    { success := true, performer_count := none, onlyfans_detected := false,
      onlyfans_username := none, confidence := 0, error := none }
  match env.existsCheck with
  | .error e => { result with success := false, error := some e }
  | .ok false => { result with success := false, error := some "Video file not found" }
  | .ok true =>
    let count := count_performers env.video 8
    let result := if count.isSome then { result with performer_count := count } else result
    match detect_watermark env.video with
    | (username, has_onlyfans, confidence) =>
      if has_onlyfans then
        { result with onlyfans_detected := true, onlyfans_username := username,
                      confidence := confidence }
      else result

/-- The mutable state of a `LocalAIDetector` instance: `model_path` and the
two model handles (handles are opaque identifiers; `none` is Python
`None`). -/
structure DetectorState where
  model_path : String
  person_detector : Option Nat
  ocr_reader : Option Nat
deriving DecidableEq

/-- Environment for `_load_models`: the result of constructing the YOLO
model and the EasyOCR reader (an `error` is a raised exception). -/
structure LoadEnv where
  yolo : Except String Nat
  ocrReader : Except String Nat

/-- `LocalAIDetector._load_models`, threading the instance state: on
success both handles are assigned; on any exception the process prints a
JSON payload to standard error and exits with code 1 (the `.error` case,
carrying the exception text). -/
def load_models (d : DetectorState) (env : LoadEnv) : Except String DetectorState :=
  match env.yolo with
  | .error e => .error e
  | .ok pd =>
    match env.ocrReader with
    | .error e => .error e
    | .ok rd => .ok { d with person_detector := some pd, ocr_reader := some rd }

/-- `LocalAIDetector.__init__`: set `model_path`, null the two handles,
then run `_load_models`. -/
def init_detector (model_path : String) (env : LoadEnv) : Except String DetectorState :=
  load_models { model_path := model_path, person_detector := none, ocr_reader := none } env

/-- `count_performers` as a state-threading method: the source assigns no
instance field, so the state passes through unchanged. -/
def count_performersS (d : DetectorState) (env : VideoEnv) (num_frames : Nat) :
    DetectorState × Option Nat :=
  (d, count_performers env num_frames)

/-- `detect_watermark` as a state-threading method: the source assigns no
instance field (nor do `_get_corners`, `_has_onlyfans_text`,
`_extract_username`), so the state passes through unchanged. -/
def detect_watermarkS (d : DetectorState) (env : VideoEnv) :
    DetectorState × (Option String × Bool × ℚ) :=
  (d, detect_watermark env)

/-- `analyze_video` as a state-threading method, calling the two
state-threading helpers in source order. -/
def analyze_videoS (d : DetectorState) (env : PathEnv) : DetectorState × AVResult :=
  let result : AVResult :=
    { success := true, performer_count := none, onlyfans_detected := false,
      onlyfans_username := none, confidence := 0, error := none }
  match env.existsCheck with
  | .error e => (d, { result with success := false, error := some e })
  | .ok false => (d, { result with success := false, error := some "Video file not found" })
  | .ok true =>
    match count_performersS d env.video 8 with
    | (d1, count) =>
      let result := if count.isSome then { result with performer_count := count } else result
      match detect_watermarkS d1 env.video with
      | (d2, (username, has_onlyfans, confidence)) =>
        if has_onlyfans then
          (d2, { result with onlyfans_detected := true, onlyfans_username := username,
                             confidence := confidence })
        else (d2, result)

/-- A JSON scalar value as this program emits them. -/
inductive JVal where
  | jnull
  | jbool (b : Bool)
  | jnum (q : ℚ)
  | jstr (s : String)
deriving DecidableEq

/-- A JSON document: the ordered field list of a `json.dumps` of a dict. -/
structure JDoc where
  fields : List (String × JVal)
deriving DecidableEq

/-- The field names of a JSON document, in order. -/
def JDoc.names (d : JDoc) : List String := d.fields.map (fun f => f.1)

/-- The payload printed to standard output by the module-level import
guard when `ultralytics`/`easyocr` cannot be imported. -/
def importGuardJson : JDoc :=
  ⟨[("error", .jstr "Missing required packages"),
    ("message", .jstr "Please run: pip install ultralytics opencv-python easyocr torch torchvision"),
    ("performer_count", .jnull),
    ("onlyfans_detected", .jbool false),
    ("onlyfans_username", .jnull),
    ("confidence", .jnum 0)]⟩

/-- The payload printed to standard output by `main` when no video path
argument is given. -/
def usageJson : JDoc :=
  ⟨[("error", .jstr "Usage: python ai_detector.py <video_path>"),
    ("success", .jbool false)]⟩

/-- The payload printed to standard error by `_load_models` when loading
raises exception text `e`. -/
def loadErrJson (e : String) : JDoc :=
  ⟨[("error", .jstr ("Failed to load models: " ++ e)),
    ("performer_count", .jnull),
    ("onlyfans_detected", .jbool false),
    ("onlyfans_username", .jnull),
    ("confidence", .jnum 0)]⟩

/-- `json.dumps(result, indent=2)` of an `analyze_video` dictionary, field
for field in insertion order. -/
def resultJson (r : AVResult) : JDoc :=
  ⟨[("success", .jbool r.success),
    ("performer_count", match r.performer_count with | none => .jnull | some n => .jnum n),
    ("onlyfans_detected", .jbool r.onlyfans_detected),
    ("onlyfans_username", match r.onlyfans_username with | none => .jnull | some u => .jstr u),
    ("confidence", .jnum r.confidence),
    ("error", match r.error with | none => .jnull | some e => .jstr e)]⟩

/-- Environment of one process run: whether the `ultralytics`/`easyocr`
imports succeed, the argument vector (`argv[0]` is the script name), the
model-loading environment, and the analysis environment behind the path
argument. -/
structure ProcEnv where
  importsOk : Bool
  argv : List String
  load : LoadEnv
  path : PathEnv

/-- Observable result of one process run: exit code and the JSON documents
printed to standard output, plus the standard error lines. -/
structure ProcResult where
  exitCode : Nat
  stdout : List JDoc
  stderrJson : List JDoc
  stderrText : List String
deriving DecidableEq

/-- The plain-text standard error output of the two analysis helpers: the
`except` clause of `count_performers` prints `Error counting performers:`,
the one of `detect_watermark` prints `Error detecting watermark:`; the
inner per-corner OCR `try` just continues, printing nothing. -/
def analysisStderr (p : PathEnv) : List String :=
  match p.existsCheck with
  | .ok true =>
    (if p.video.opens ∧ p.video.totalFrames ≠ 0 then
      match runCounts p.video.cpOutcome (frameIndices p.video.totalFrames 8) with
      | .error e => ["Error counting performers: " ++ e]
      | .ok _ => []
    else []) ++
    (match p.video.dwRaise with
     | some e => ["Error detecting watermark: " ++ e]
     | none => [])
  | _ => []

/-- The whole process: module import guard, the argument check in `main`,
detector construction (`__init__` / `_load_models`), analysis, and the
final `print(json.dumps(result, indent=2))`; a normal return from `main`
exits with code 0. -/
def runProcess (env : ProcEnv) : ProcResult :=
  if !env.importsOk then
    { exitCode := 1, stdout := [importGuardJson], stderrJson := [], stderrText := [] }
  else if env.argv.length < 2 then
    { exitCode := 1, stdout := [usageJson], stderrJson := [], stderrText := [] }
  else
    match init_detector "yolov8n.pt" env.load with
    | .error e =>
      { exitCode := 1, stdout := [], stderrJson := [loadErrJson e], stderrText := [] }
    | .ok d =>
      match analyze_videoS d env.path with
      | (_, r) =>
        { exitCode := 0, stdout := [resultJson r], stderrJson := [],
          stderrText := analysisStderr env.path }

/-! ### Concrete test environments -/

/-- A video environment in which the capture does not open and every
dependency call fails. -/
def emptyVideoEnv : VideoEnv :=
  { opens := false, totalFrames := 0, cpOutcome := fun _ => .decodeFail,
    dwRead := fun _ => none, ocr := fun _ => .error "", dwRaise := none }

/-- A path that does not exist on disk. -/
def missingPathEnv : PathEnv := ⟨.ok false, emptyVideoEnv⟩

/-- An existing path over the empty video environment. -/
def okPathEnv : PathEnv := ⟨.ok true, emptyVideoEnv⟩

/-- A 9-frame video (sampled indices 1..8) whose frames 1, 2, 3 decode and
yield person counts 2, 3, 2; the rest fail to decode. -/
def wcountEnv : VideoEnv :=
  { opens := true, totalFrames := 9,
    cpOutcome := fun idx =>
      if idx = 1 then .counted 2 else if idx = 2 then .counted 3
      else if idx = 3 then .counted 2 else .decodeFail,
    dwRead := fun _ => none, ocr := fun _ => .error "", dwRaise := none }

/-- A 9-frame video whose frame 1 yields count 2 and whose frame 2 makes
the person detector raise. -/
def cexCountEnv : VideoEnv :=
  { opens := true, totalFrames := 9,
    cpOutcome := fun idx =>
      if idx = 1 then .counted 2
      else if idx = 2 then .detectRaise "boom" else .decodeFail,
    dwRead := fun _ => none, ocr := fun _ => .error "", dwRaise := none }

/-- A small frame. -/
def testFrame : Frame := ⟨6, 4, fun i j => 10 * i + j⟩

/-- A 100-frame video: every sampled frame decodes to `testFrame` and OCR
reads an OnlyFans watermark in every corner. -/
def dwEnv : VideoEnv :=
  { opens := true, totalFrames := 100, cpOutcome := fun _ => .decodeFail,
    dwRead := fun _ => some testFrame,
    ocr := fun _ => .ok ["OnlyFans.com/TestUser"], dwRaise := none }

/-- An existing path over the watermark video environment. -/
def dwPathEnv : PathEnv := ⟨.ok true, dwEnv⟩

/-- A model-load environment in which both models load. -/
def okLoadEnv : LoadEnv := ⟨.ok 0, .ok 1⟩

/-- A full process run on a syntactically fine but nonexistent path. -/
def cexProcEnv : ProcEnv :=
  ⟨true, ["ai_detector.py", "/tmp/missing.mp4"], okLoadEnv, missingPathEnv⟩

/-- A full process run in which YOLO model loading raises. -/
def loadFailProcEnv : ProcEnv :=
  ⟨true, ["ai_detector.py", "video.mp4"], ⟨.error "boom", .ok 1⟩, missingPathEnv⟩

/-- A full process run with the dependency imports failing. -/
def guardProcEnv : ProcEnv := ⟨false, [], okLoadEnv, missingPathEnv⟩

/-- A full process run with no path argument. -/
def usageProcEnv : ProcEnv := ⟨true, ["ai_detector.py"], okLoadEnv, missingPathEnv⟩

/-- The result dictionary of `analyze_video` for a nonexistent path. -/
def notFoundResult : AVResult :=
  { success := false, performer_count := none, onlyfans_detected := false,
    onlyfans_username := none, confidence := 0,
    error := some "Video file not found" }

/-- A detector whose two model handles are loaded from `okLoadEnv`. -/
def exDetector : DetectorState :=
  { model_path := "yolov8n.pt", person_detector := some 0, ocr_reader := some 1 }

/-! ### Supporting lemmas -/

/-- Is this loop outcome a raised detection exception? -/
def isRaise : DetectOutcome → Bool
  | .detectRaise _ => true
  | _ => false

lemma runCounts_ok (f : Nat → DetectOutcome) (l : List Nat)
    (h : ∀ idx ∈ l, isRaise (f idx) = false) :
    runCounts f l = .ok (l.filterMap (fun idx =>
      match f idx with
      | .counted n => some n
      | _ => none)) := by
  induction l with
  | nil => rfl
  | cons idx rest ih =>
    have hidx := h idx (List.mem_cons_self idx rest)
    have hrest : ∀ i ∈ rest, isRaise (f i) = false :=
      fun i hi => h i (List.mem_cons_of_mem idx hi)
    cases ho : f idx with
    | decodeFail => simp [runCounts, List.filterMap_cons, ho, ih hrest]
    | detectRaise msg => rw [ho] at hidx; simp [isRaise] at hidx
    | noBoxes => simp [runCounts, List.filterMap_cons, ho, ih hrest]
    | counted n => simp [runCounts, List.filterMap_cons, ho, ih hrest, Except.map]

lemma pyMode_spec {α : Type} [DecidableEq α] (l : List α) (hne : l ≠ []) :
    ∃ m, pyMode l = some m ∧ m ∈ l ∧ ∀ v ∈ l, l.count v ≤ l.count m := by
  unfold pyMode
  cases hm : (l.dedup).argmax (fun v => l.count v) with
  | none =>
    rw [List.argmax_eq_none, List.dedup_eq_nil] at hm
    exact absurd hm hne
  | some m =>
    refine ⟨m, rfl, ?_, ?_⟩
    · exact List.dedup_subset l (List.argmax_mem hm)
    · intro v hv
      exact List.le_of_mem_argmax (List.mem_dedup.2 hv) hm

lemma lowerAscii_user {c : Char} (h : isUserChar c = true) :
    isLowerUserChar (lowerAscii c) = true := by
  unfold lowerAscii
  by_cases hu : (65 ≤ c.toNat && c.toNat ≤ 90) = true
  · rw [if_pos hu]
    simp only [Bool.and_eq_true, decide_eq_true_eq] at hu
    obtain ⟨h1, h2⟩ := hu
    generalize c.toNat = m at h1 h2 ⊢
    interval_cases m <;> decide
  · rw [if_neg hu]
    unfold isUserChar at h
    unfold isLowerUserChar
    simp only [Bool.and_eq_true, Bool.or_eq_true, decide_eq_true_eq] at h hu ⊢
    omega

lemma lowerAscii_fixed {c : Char} (h : isLowerUserChar c = true) :
    lowerAscii c = c := by
  unfold lowerAscii
  rw [if_neg]
  unfold isLowerUserChar at h
  simp only [Bool.and_eq_true, Bool.or_eq_true, decide_eq_true_eq] at h ⊢
  omega

lemma validateUsername_spec {cap : List Char} {u : String}
    (h : validateUsername cap = some u) :
    3 ≤ u.length ∧ u.length ≤ 30 ∧ u.data.all isLowerUserChar = true := by
  unfold validateUsername at h
  by_cases hc : (3 ≤ cap.length && cap.length ≤ 30 && cap.all isUserChar) = true
  · rw [if_pos hc] at h
    simp only [Option.some.injEq] at h
    subst h
    simp only [Bool.and_eq_true, decide_eq_true_eq, List.all_eq_true] at hc
    obtain ⟨⟨h1, h2⟩, h3⟩ := hc
    refine ⟨?_, ?_, ?_⟩
    · show 3 ≤ (cap.map lowerAscii).length
      simpa using h1
    · show (cap.map lowerAscii).length ≤ 30
      simpa using h2
    · show (cap.map lowerAscii).all isLowerUserChar = true
      rw [List.all_eq_true]
      intro c hcmem
      obtain ⟨c0, hc0, rfl⟩ := List.mem_map.1 hcmem
      exact lowerAscii_user (h3 c0 hc0)
  · rw [if_neg hc] at h
    exact absurd h (by simp)

lemma extractFrom_spec :
    ∀ (ps : List (List Char → Option (List Char))) (s : List Char) (u : String),
      extractFrom ps s = some u → ∃ cap, validateUsername cap = some u := by
  intro ps
  induction ps with
  | nil => intro s u h; exact absurd h (by simp [extractFrom])
  | cons p rest ih =>
    intro s u h
    unfold extractFrom at h
    split at h
    · rename_i cap hs
      split at h
      · rename_i u0 hv
        simp only [Option.some.injEq] at h
        exact ⟨cap, h ▸ hv⟩
      · exact ih s u h
    · exact ih s u h

lemma detect_watermark_pos (env : VideoEnv)
    (h : (detect_watermark env).2.1 = true) :
    (∃ u, (detect_watermark env).1 = some u) ∧
      (2 : ℚ) / 5 < (detect_watermark env).2.2 := by
  simp only [detect_watermark] at h ⊢
  by_cases h1 : env.dwRaise.isSome = true
  · rw [if_pos h1] at h; simp at h
  · rw [if_neg h1] at h ⊢
    by_cases h2 : (!env.opens) = true
    · rw [if_pos h2] at h; simp at h
    · rw [if_neg h2] at h ⊢
      by_cases h3 : env.totalFrames = 0
      · rw [if_pos h3] at h; simp at h
      · rw [if_neg h3] at h ⊢
        by_cases h4 : (dwDetections env).isEmpty = true
        · rw [if_pos h4] at h; simp at h
        · rw [if_neg h4] at h ⊢
          cases hm : pyMode (dwDetections env) with
          | none => rw [hm] at h; simp at h
          | some mc =>
            rw [hm] at h
            dsimp only at h ⊢
            refine ⟨⟨mc, ?_⟩, ?_⟩
            · rw [if_pos h]
            · have hlt := of_decide_eq_true h
              rwa [show (mkRat 2 5 : ℚ) = 2 / 5 from by norm_num [Rat.mkRat_eq_div]] at hlt


lemma pyMode_mem {α : Type} [DecidableEq α] {l : List α} {m : α}
    (h : pyMode l = some m) : m ∈ l :=
  List.dedup_subset l (List.argmax_mem h)

lemma count_performers_eq (env : VideoEnv) (n : Nat)
    (hr : ∀ idx ∈ frameIndices env.totalFrames n, isRaise (env.cpOutcome idx) = false) :
    count_performers env n =
      if cpCounts env n = [] then none else pyMode (cpCounts env n) := by
  unfold count_performers cpCounts
  by_cases h1 : (!env.opens) = true
  · simp [h1]
  · rw [if_neg h1, if_neg h1]
    by_cases h2 : env.totalFrames = 0
    · simp [h2]
    · rw [if_neg h2, if_neg h2]
      rw [runCounts_ok env.cpOutcome _ hr]
      dsimp only
      by_cases he : (frameIndices env.totalFrames n).filterMap (fun idx =>
          match env.cpOutcome idx with
          | DetectOutcome.counted k => some k
          | _ => none) = []
      · rw [if_pos (by simp [he]), if_pos he]
      · rw [if_neg (by simpa using he), if_neg he]

lemma detect_watermark_mem (env : VideoEnv) (u : String)
    (h : (detect_watermark env).1 = some u) : u ∈ dwDetections env := by
  simp only [detect_watermark] at h
  by_cases h1 : env.dwRaise.isSome = true
  · rw [if_pos h1] at h; simp at h
  · rw [if_neg h1] at h
    by_cases h2 : (!env.opens) = true
    · rw [if_pos h2] at h; simp at h
    · rw [if_neg h2] at h
      by_cases h3 : env.totalFrames = 0
      · rw [if_pos h3] at h; simp at h
      · rw [if_neg h3] at h
        by_cases h4 : (dwDetections env).isEmpty = true
        · rw [if_pos h4] at h; simp at h
        · rw [if_neg h4] at h
          cases hm : pyMode (dwDetections env) with
          | none => rw [hm] at h; simp at h
          | some mc =>
            rw [hm] at h
            dsimp only at h
            by_cases hd : decide (mkRat 2 5 <
                mkRat ((dwDetections env).count mc) (dwDetections env).length) = true
            · rw [if_pos hd] at h
              simp only [Option.some.injEq] at h
              exact h ▸ pyMode_mem hm
            · rw [if_neg hd] at h; simp at h

lemma analyze_video_fields (env : PathEnv) (h : env.existsCheck = .ok true) :
    (analyze_video env).success = true ∧
    (analyze_video env).error = none ∧
    (analyze_video env).performer_count = count_performers env.video 8 ∧
    (analyze_video env).onlyfans_detected = (detect_watermark env.video).2.1 ∧
    (analyze_video env).onlyfans_username =
      (if (detect_watermark env.video).2.1 then (detect_watermark env.video).1 else none) ∧
    (analyze_video env).confidence =
      (if (detect_watermark env.video).2.1 then (detect_watermark env.video).2.2 else 0) := by
  simp only [analyze_video, h]
  rcases hdw : detect_watermark env.video with ⟨u0, b0, q0⟩
  dsimp only
  cases b0 <;> cases hc : count_performers env.video 8 <;> simp [hc]

/-! ### Claim theorems -/

/-- C1: for every input path that does not exist on disk, `analyze_video`
returns `success = false` with error string `Video file not found`, and
every other field keeps its default value (`performer_count = none`,
`onlyfans_detected = false`, `onlyfans_username = none`,
`confidence = 0`). -/
theorem C1_missing_file (env : PathEnv) (h : env.existsCheck = .ok false) :
    analyze_video env =
      { success := false, performer_count := none, onlyfans_detected := false,
        onlyfans_username := none, confidence := 0,
        error := some "Video file not found" } := by
  unfold analyze_video
  rw [h]

/-- Witness for C1 at a concrete nonexistent path. -/
theorem C1_missing_file_witness :
    analyze_video missingPathEnv =
      { success := false, performer_count := none, onlyfans_detected := false,
        onlyfans_username := none, confidence := 0,
        error := some "Video file not found" } :=
  C1_missing_file missingPathEnv rfl

/-- C2 counterexample: in `cexCountEnv` frame 1 is successfully decoded and
analysed (count 2), yet because frame 2 makes the detector raise,
`count_performers` returns `none` instead of the mode of `[2]`. -/
theorem C2_counterexample :
    cpCounts cexCountEnv 8 = [2] ∧ count_performers cexCountEnv 8 = none := by
  decide

/-- C2 (amended): provided no sampled frame makes the person detector
raise, `count_performers` returns `none` when no frame yields a count, and
otherwise a mode of the per-frame counts: a value occurring in the list at
least as often as every other value. -/
theorem C2_count_performers_mode (env : VideoEnv) (n : Nat)
    (hr : ∀ idx ∈ frameIndices env.totalFrames n, isRaise (env.cpOutcome idx) = false) :
    (cpCounts env n = [] → count_performers env n = none) ∧
    (cpCounts env n ≠ [] →
      ∃ m, count_performers env n = some m ∧ m ∈ cpCounts env n ∧
        ∀ v ∈ cpCounts env n, (cpCounts env n).count v ≤ (cpCounts env n).count m) := by
  rw [count_performers_eq env n hr]
  constructor
  · intro he
    rw [if_pos he]
  · intro hne
    rw [if_neg hne]
    exact pyMode_spec _ hne

/-- Witness for C2 at a concrete video with per-frame counts `[2, 3, 2]`. -/
theorem C2_count_performers_mode_witness :
    cpCounts wcountEnv 8 = [2, 3, 2] ∧ count_performers wcountEnv 8 = some 2 ∧
    (∃ m, count_performers wcountEnv 8 = some m ∧ m ∈ cpCounts wcountEnv 8 ∧
      ∀ v ∈ cpCounts wcountEnv 8,
        (cpCounts wcountEnv 8).count v ≤ (cpCounts wcountEnv 8).count m) :=
  ⟨by decide, by decide,
   (C2_count_performers_mode wcountEnv 8 (by decide)).2 (by decide)⟩

/-- C9: whenever `_extract_username` returns a username, it is 3 to 30
characters long, all of its characters are lowercase ASCII letters, digits,
underscore or dash, and lowercasing it changes nothing. -/
theorem C9_username_shape (s : List Char) (u : String)
    (h : extract_username s = some u) :
    3 ≤ u.length ∧ u.length ≤ 30 ∧ u.data.all isLowerUserChar = true ∧
    u.data.map lowerAscii = u.data := by
  obtain ⟨cap, hv⟩ := extractFrom_spec usernamePatterns s u h
  obtain ⟨h1, h2, h3⟩ := validateUsername_spec hv
  refine ⟨h1, h2, h3, ?_⟩
  have hfix : ∀ c ∈ u.data, lowerAscii c = c := fun c hc =>
    lowerAscii_fixed (List.all_eq_true.1 h3 c hc)
  calc u.data.map lowerAscii = u.data.map id := List.map_congr_left hfix
  _ = u.data := List.map_id u.data

/-- Witness for C9 at a concrete watermark text. -/
theorem C9_username_shape_witness :
    3 ≤ "testuser".length ∧ "testuser".length ≤ 30 ∧
    "testuser".data.all isLowerUserChar = true ∧
    "testuser".data.map lowerAscii = "testuser".data :=
  C9_username_shape "onlyfans.com/TestUser".toList "testuser" (by decide)

/-- C10: for a frame of height at least 6 and width at least 4,
`_get_corners` returns exactly four regions, each of height `h / 6` and
width `w / 4`, whose pixels are those of the top-left, top-right,
bottom-left and bottom-right corners of the frame. -/
theorem C10_corners (f : Frame) (hh : 6 ≤ f.h) (hw : 4 ≤ f.w) :
    (get_corners f).length = 4 ∧
    (∀ c ∈ get_corners f, c.h = f.h / 6 ∧ c.w = f.w / 4) ∧
    (∀ i j,
      ((get_corners f).getD 0 f).px i j = f.px i j ∧
      ((get_corners f).getD 1 f).px i j = f.px i (f.w - f.w / 4 + j) ∧
      ((get_corners f).getD 2 f).px i j = f.px (f.h - f.h / 6 + i) j ∧
      ((get_corners f).getD 3 f).px i j =
        f.px (f.h - f.h / 6 + i) (f.w - f.w / 4 + j)) := by
  have hdh : f.h / 6 ≤ f.h := Nat.div_le_self _ _
  have hdw : f.w / 4 ≤ f.w := Nat.div_le_self _ _
  refine ⟨rfl, ?_, ?_⟩
  · intro c hc
    simp only [get_corners, List.mem_cons, List.not_mem_nil, or_false] at hc
    rcases hc with rfl | rfl | rfl | rfl <;>
      exact ⟨by dsimp only [subFrame]; omega, by dsimp only [subFrame]; omega⟩
  · intro i j
    refine ⟨?_, ?_, ?_, ?_⟩ <;> simp [get_corners, subFrame, List.getD]

/-- Witness for C10 at a concrete 6 by 4 frame. -/
theorem C10_corners_witness :
    (get_corners testFrame).length = 4 ∧
    ((get_corners testFrame).getD 1 testFrame).px 0 0 = testFrame.px 0 3 := by
  obtain ⟨h1, _, h3⟩ := C10_corners testFrame (by decide) (by decide)
  exact ⟨h1, (h3 0 0).2.1⟩


/-- C5: `detect_watermark` reports a username only via regex matching over
OCR text of corner regions: a non-`none` username arises only when, for
some sampled frame index that decodes, one of the four corner regions of
that frame OCRs to a text whose lowercased space-joined form passes the
OnlyFans-branding check and yields that very username through the
username-pattern extraction. -/
theorem C5_watermark_from_ocr (env : VideoEnv) (u : String)
    (h : (detect_watermark env).1 = some u) :
    ∃ idx ∈ dwFrameIndices env.totalFrames, ∃ frame,
      env.dwRead idx = some frame ∧
      ∃ corner ∈ get_corners frame, ∃ chunks, env.ocr corner = .ok chunks ∧
        has_onlyfans_text (((String.intercalate " " chunks).toList).map lowerAscii) = true ∧
        extract_username (((String.intercalate " " chunks).toList).map lowerAscii) = some u := by
  have hmem : u ∈ dwDetections env := detect_watermark_mem env u h
  unfold dwDetections at hmem
  obtain ⟨idx, hidx, hin⟩ := List.mem_flatMap.1 hmem
  refine ⟨idx, hidx, ?_⟩
  cases hr : env.dwRead idx with
  | none => rw [hr] at hin; simp at hin
  | some frame =>
    rw [hr] at hin
    obtain ⟨corner, hcor, hpc⟩ := List.mem_filterMap.1 hin
    refine ⟨frame, rfl, corner, hcor, ?_⟩
    unfold processCorner at hpc
    cases ho : env.ocr corner with
    | error e => rw [ho] at hpc; simp at hpc
    | ok chunks =>
      rw [ho] at hpc
      dsimp only at hpc
      by_cases hb : has_onlyfans_text
          (((String.intercalate " " chunks).toList).map lowerAscii) = true
      · rw [if_pos hb] at hpc
        exact ⟨chunks, rfl, hb, hpc⟩
      · rw [if_neg hb] at hpc
        simp at hpc

/-- Witness for C5 at a concrete video whose corners OCR to an OnlyFans
watermark. -/
theorem C5_watermark_from_ocr_witness :
    ∃ idx ∈ dwFrameIndices dwEnv.totalFrames, ∃ frame,
      dwEnv.dwRead idx = some frame ∧
      ∃ corner ∈ get_corners frame, ∃ chunks, dwEnv.ocr corner = .ok chunks ∧
        has_onlyfans_text (((String.intercalate " " chunks).toList).map lowerAscii) = true ∧
        extract_username (((String.intercalate " " chunks).toList).map lowerAscii) =
          some "testuser" :=
  C5_watermark_from_ocr dwEnv "testuser" (by decide)

/-- C6: for every existing input path, exceptions inside the two analysis
stages are absorbed: the result has `success = true` and no error, the
performer count is exactly what `count_performers` produced (so `none`
when that stage failed), and when watermark detection reports nothing the
watermark fields keep their defaults while the performer count is
untouched. -/
theorem C6_best_effort (env : PathEnv) (h : env.existsCheck = .ok true) :
    (analyze_video env).success = true ∧
    (analyze_video env).error = none ∧
    (analyze_video env).performer_count = count_performers env.video 8 ∧
    (analyze_video env).onlyfans_detected = (detect_watermark env.video).2.1 ∧
    ((detect_watermark env.video).2.1 = false →
      (analyze_video env).onlyfans_detected = false ∧
      (analyze_video env).onlyfans_username = none ∧
      (analyze_video env).confidence = 0) := by
  obtain ⟨h1, h2, h3, h4, h5, h6⟩ := analyze_video_fields env h
  refine ⟨h1, h2, h3, h4, fun hb => ⟨h4.trans hb, ?_, ?_⟩⟩
  · rw [h5, hb, if_neg (by simp)]
  · rw [h6, hb, if_neg (by simp)]

/-- Witness for C6 at an existing path whose video fails to open, so both
stages fail and the best-effort result is still a success. -/
theorem C6_best_effort_witness :
    (analyze_video okPathEnv).success = true ∧
    (analyze_video okPathEnv).error = none ∧
    (analyze_video okPathEnv).performer_count = count_performers okPathEnv.video 8 ∧
    ((analyze_video okPathEnv).onlyfans_detected = false ∧
      (analyze_video okPathEnv).onlyfans_username = none ∧
      (analyze_video okPathEnv).confidence = 0) := by
  have h := C6_best_effort okPathEnv rfl
  exact ⟨h.1, h.2.1, h.2.2.1, h.2.2.2.2 (by decide)⟩

/-- C7: `analyze_video` and the helpers it calls leave the detector state
(`model_path`, `person_detector`, `ocr_reader`) exactly as it was; only
`_load_models` during construction assigns the two model handles. -/
theorem C7_state_unchanged (d : DetectorState) (env : PathEnv)
    (venv : VideoEnv) (n : Nat) (mp : String) (lenv : LoadEnv) (d0 : DetectorState) :
    (analyze_videoS d env).1 = d ∧
    (count_performersS d venv n).1 = d ∧
    (detect_watermarkS d venv).1 = d ∧
    (init_detector mp lenv = .ok d0 →
      ∃ pd rd, lenv.yolo = .ok pd ∧ lenv.ocrReader = .ok rd ∧
        d0 = { model_path := mp, person_detector := some pd, ocr_reader := some rd }) := by
  refine ⟨?_, rfl, rfl, ?_⟩
  · unfold analyze_videoS count_performersS detect_watermarkS
    rcases env.existsCheck with e | b
    · rfl
    · cases b
      · rfl
      · dsimp only
        rcases detect_watermark env.video with ⟨u0, b0, q0⟩
        cases b0 <;> rfl
  · intro hinit
    unfold init_detector load_models at hinit
    cases hy : lenv.yolo with
    | error e => rw [hy] at hinit; exact absurd hinit (by simp)
    | ok pd =>
      rw [hy] at hinit
      cases hr : lenv.ocrReader with
      | error e => rw [hr] at hinit; exact absurd hinit (by simp)
      | ok rd =>
        rw [hr] at hinit
        simp only [Except.ok.injEq] at hinit
        exact ⟨pd, rd, rfl, rfl, hinit.symm⟩

/-- Witness for C7 at a concrete detector state and load environment. -/
theorem C7_state_unchanged_witness :
    (analyze_videoS exDetector okPathEnv).1 = exDetector ∧
    (count_performersS exDetector emptyVideoEnv 8).1 = exDetector ∧
    (detect_watermarkS exDetector emptyVideoEnv).1 = exDetector ∧
    (∃ pd rd, okLoadEnv.yolo = .ok pd ∧ okLoadEnv.ocrReader = .ok rd ∧
      exDetector = { model_path := "yolov8n.pt", person_detector := some pd,
                     ocr_reader := some rd }) := by
  have h := C7_state_unchanged exDetector okPathEnv emptyVideoEnv 8
    "yolov8n.pt" okLoadEnv exDetector
  exact ⟨h.1, h.2.1, h.2.2.1, h.2.2.2 rfl⟩

/-- C8: in every `analyze_video` result, `onlyfans_detected = false` forces
`onlyfans_username = none` and `confidence = 0`, while
`onlyfans_detected = true` forces a present username and a confidence
strictly above `2/5`. -/
theorem C8_result_invariant (env : PathEnv) :
    ((analyze_video env).onlyfans_detected = false →
      (analyze_video env).onlyfans_username = none ∧
      (analyze_video env).confidence = 0) ∧
    ((analyze_video env).onlyfans_detected = true →
      (∃ u, (analyze_video env).onlyfans_username = some u) ∧
      (2 : ℚ) / 5 < (analyze_video env).confidence) := by
  rcases hex : env.existsCheck with e | b
  · have hv : analyze_video env =
        { success := false, performer_count := none, onlyfans_detected := false,
          onlyfans_username := none, confidence := 0, error := some e } := by
      unfold analyze_video
      rw [hex]
    rw [hv]
    exact ⟨fun _ => ⟨rfl, rfl⟩, fun hf => absurd hf (by simp)⟩
  · cases b
    · have hv : analyze_video env = notFoundResult := by
        unfold analyze_video
        rw [hex]
        rfl
      rw [hv]
      exact ⟨fun _ => ⟨rfl, rfl⟩, fun hf => absurd hf (by simp [notFoundResult])⟩
    · obtain ⟨_, _, _, hdet, husr, hconf⟩ := analyze_video_fields env hex
      constructor
      · intro hb
        rw [hdet] at hb
        rw [husr, hconf, hb]
        exact ⟨if_neg (by simp), if_neg (by simp)⟩
      · intro hb
        rw [hdet] at hb
        obtain ⟨⟨u, hu⟩, hq⟩ := detect_watermark_pos env.video hb
        rw [husr, hconf, hb]
        exact ⟨⟨u, by rw [if_pos rfl]; exact hu⟩, by rw [if_pos rfl]; exact hq⟩

/-- Witness for C8 at a detecting and a non-detecting environment. -/
theorem C8_result_invariant_witness :
    ((analyze_video missingPathEnv).onlyfans_username = none ∧
      (analyze_video missingPathEnv).confidence = 0) ∧
    ((∃ u, (analyze_video dwPathEnv).onlyfans_username = some u) ∧
      (2 : ℚ) / 5 < (analyze_video dwPathEnv).confidence) :=
  ⟨(C8_result_invariant missingPathEnv).1 (by decide),
   (C8_result_invariant dwPathEnv).2 (by decide)⟩


/-- C3 counterexample: with a syntactically fine but nonexistent input
path the process exits with code 0 (not 1), and with a model-load failure
the JSON error payload goes to standard error (nothing on standard
output). -/
theorem C3_counterexample :
    runProcess cexProcEnv =
      { exitCode := 0,
        stdout := [resultJson notFoundResult],
        stderrJson := [], stderrText := [] } ∧
    runProcess loadFailProcEnv =
      { exitCode := 1, stdout := [], stderrJson := [loadErrJson "boom"],
        stderrText := [] } := by
  decide

/-- C3 (amended): a failing dependency import, or a missing path argument,
prints a JSON error payload to standard output and exits with code 1; a
model-load failure prints its JSON error payload to standard error and
exits with code 1; a nonexistent input path instead yields exit code 0
with a `success = false` JSON document on standard output. -/
theorem C3_process_exit (env : ProcEnv) :
    (env.importsOk = false → runProcess env =
      { exitCode := 1, stdout := [importGuardJson], stderrJson := [], stderrText := [] }) ∧
    (env.importsOk = true → env.argv.length < 2 → runProcess env =
      { exitCode := 1, stdout := [usageJson], stderrJson := [], stderrText := [] }) ∧
    (∀ e, env.importsOk = true → 2 ≤ env.argv.length →
      init_detector "yolov8n.pt" env.load = .error e → runProcess env =
      { exitCode := 1, stdout := [], stderrJson := [loadErrJson e], stderrText := [] }) ∧
    (∀ d, env.importsOk = true → 2 ≤ env.argv.length →
      init_detector "yolov8n.pt" env.load = .ok d →
      env.path.existsCheck = .ok false →
      (runProcess env).exitCode = 0 ∧
      (runProcess env).stdout =
        [resultJson notFoundResult]) := by
  refine ⟨?_, ?_, ?_, ?_⟩
  · intro h
    unfold runProcess
    rw [if_pos (by rw [h]; rfl)]
  · intro h hl
    unfold runProcess
    rw [if_neg (by rw [h]; simp), if_pos hl]
  · intro e h hl he
    unfold runProcess
    rw [if_neg (by rw [h]; simp), if_neg (Nat.not_lt.2 hl), he]
  · intro d h hl hd hex
    unfold runProcess
    rw [if_neg (by rw [h]; simp), if_neg (Nat.not_lt.2 hl), hd]
    have hav : (analyze_videoS d env.path).2 =
        { success := false, performer_count := none, onlyfans_detected := false,
          onlyfans_username := none, confidence := 0,
          error := some "Video file not found" } := by
      unfold analyze_videoS
      rw [hex]
    dsimp only
    rw [hav]
    exact ⟨rfl, rfl⟩

/-- Witness for C3 at the four concrete process environments. -/
theorem C3_process_exit_witness :
    runProcess guardProcEnv =
      { exitCode := 1, stdout := [importGuardJson], stderrJson := [], stderrText := [] } ∧
    runProcess usageProcEnv =
      { exitCode := 1, stdout := [usageJson], stderrJson := [], stderrText := [] } ∧
    runProcess loadFailProcEnv =
      { exitCode := 1, stdout := [], stderrJson := [loadErrJson "boom"], stderrText := [] } ∧
    ((runProcess cexProcEnv).exitCode = 0 ∧
      (runProcess cexProcEnv).stdout =
        [resultJson notFoundResult]) :=
  ⟨(C3_process_exit guardProcEnv).1 rfl,
   (C3_process_exit usageProcEnv).2.1 rfl (by decide),
   (C3_process_exit loadFailProcEnv).2.2.1 "boom" rfl (by decide) rfl,
   (C3_process_exit cexProcEnv).2.2.2
     { model_path := "yolov8n.pt", person_detector := some 0, ocr_reader := some 1 }
     rfl (by decide) rfl rfl⟩

/-- C4 counterexample: the usage-error payload printed to standard output
has only the fields `error` and `success` (no `performer_count`), and the
import-guard payload has no `success` field at all. -/
theorem C4_counterexample :
    (runProcess usageProcEnv).stdout = [usageJson] ∧
    usageJson.names = ["error", "success"] ∧
    usageJson.names.contains "performer_count" = false ∧
    (runProcess guardProcEnv).stdout = [importGuardJson] ∧
    importGuardJson.names.contains "success" = false := by
  decide

/-- C4 (amended): every JSON document the process prints to standard
output has one of three field sets: the full six-field analysis result,
the import-guard payload (`error`, `message` and the four analysis fields,
but no `success`), or the usage payload (only `error` and `success`). -/
theorem C4_stdout_fields (env : ProcEnv) :
    ∀ d ∈ (runProcess env).stdout,
      d.names = ["success", "performer_count", "onlyfans_detected",
                 "onlyfans_username", "confidence", "error"] ∨
      d.names = ["error", "message", "performer_count", "onlyfans_detected",
                 "onlyfans_username", "confidence"] ∨
      d.names = ["error", "success"] := by
  intro d hd
  unfold runProcess at hd
  split at hd
  · simp only [List.mem_singleton] at hd
    subst hd
    right; left; rfl
  · split at hd
    · simp only [List.mem_singleton] at hd
      subst hd
      right; right; rfl
    · split at hd
      · simp at hd
      · rename_i d0 hd0
        rcases hav : analyze_videoS d0 env.path with ⟨d1, r⟩
        rw [hav] at hd
        simp only [List.mem_singleton] at hd
        subst hd
        left; rfl

/-- Witness for C4 at a concrete emitted document. -/
theorem C4_stdout_fields_witness :
    (resultJson notFoundResult).names =
      ["success", "performer_count", "onlyfans_detected",
       "onlyfans_username", "confidence", "error"] ∨
    (resultJson notFoundResult).names =
      ["error", "message", "performer_count", "onlyfans_detected",
       "onlyfans_username", "confidence"] ∨
    (resultJson notFoundResult).names =
      ["error", "success"] :=
  C4_stdout_fields cexProcEnv
    (resultJson notFoundResult)
    (by decide)

end VideoIndex
